import Mathlib

/-!
Verification development for the Backend-Frank floor-plan vectorization and
room-estimation pipeline.

The Python sources under `apps/` are shallowly embedded below:
* floats are modelled as exact rationals (`ℚ`); Python's `round(x, 2)` is
  modelled as round-half-up to two decimals (`pyRound2`), which agrees with
  CPython on every value appearing in the spec's worked examples, and
  Python's `int(x)` (truncation toward zero) as `pyInt`;
* `shapely` polygons are abstracted by the three observations the pipeline
  makes of them: `area`, the point-containment test, and the centroid;
* Django tables are lists of rows, and the ORM's delete/create calls become
  list filtering and appending on an explicit database state (`DB`);
* Python strings use list-of-character operations (`pyUpper`, `pyStrip`,
  `strContains` for the `in` operator) so that everything evaluates.
-/

/-- Round-half-up to two decimal places, modelling CPython `round(x, 2)` on
the nonnegative values handled by this code base. -/
def pyRound2 (q : ℚ) : ℚ := (⌊q * 100 + 1/2⌋ : ℚ) / 100

/-- Python `int(x)`: truncation toward zero. -/
def pyInt (q : ℚ) : ℤ := if q < 0 then ⌈q⌉ else ⌊q⌋

/-- Python `str.upper()` (ASCII fragment). -/
def pyUpper (s : String) : String := String.mk (s.data.map Char.toUpper)

/-- Python `str.strip()`. -/
def pyStrip (s : String) : String :=
  String.mk (((s.data.dropWhile (fun c => c.isWhitespace)).reverse.dropWhile
    (fun c => c.isWhitespace)).reverse)

/-- Python's substring operator `needle in hay`. -/
def strContains (hay needle : String) : Bool :=
  hay.data.tails.any (fun t => needle.data.isPrefixOf t)

/-! ## Geometry model

`apps/uploads/dxf_processor*.py` build `shapely` polygons and then observe
only their area, their point-containment test and their centroid; the
polygon is therefore abstracted by exactly those observations. -/

/-- A 2D point (drawing coordinates). -/
def Point : Type := ℚ × ℚ

/-- A valid closed boundary, abstracted by the observations used by the
matchers: `poly.area`, `poly.contains(point)` and `poly.centroid`. -/
structure Polygon where
  area : ℚ
  containsPt : Point → Bool
  centroid : Point

/-- A text label: `{"name": text, "point": Point(x, y)}` from
`extract_room_labels`. -/
structure Label where
  name : String
  point : Point

/-- A room candidate dictionary `{"name", "area", "center"}` produced by
`match_rooms`. -/
structure RoomC where
  name : String
  area : ℚ
  center : Point

/-! ## Room classifier (`apps/ai/services.py` and `apps/ai/prompts.py`)

Both files define `ai_classify_room(raw_name, area)`. The keyword cascade
is identical; the two files differ in the area fallback thresholds and in
how an empty/None `raw_name` is handled. A Python `None` argument is
modelled as `Option.none`. -/

/-- The keyword rule cascade shared by both classifier versions, applied to
the upper-cased, stripped text; returns `none` when no keyword matches. -/
def keywordClassify (text : String) : Option String :=
  if strContains text "BED" then some "Bedroom"
  else if strContains text "TOILET" || strContains text "BATH" || strContains text "WC" then
    some "Bathroom"
  else if strContains text "KITCHEN" then some "Kitchen"
  else if strContains text "LIVING" || strContains text "LOUNGE" then some "Living Room"
  else if strContains text "DINING" then some "Dining Room"
  else if strContains text "SERVANT" then some "Servant Room"
  else if strContains text "STORE" then some "Store Room"
  else if strContains text "BALCONY" then some "Balcony"
  else none

/-- Area fallback buckets of `apps/ai/services.py` (≥ 20, ≥ 10, ≥ 5). -/
def areaFallbackServices (area : ℚ) : String :=
  if 20 ≤ area then "Living Room"
  else if 10 ≤ area then "Bedroom"
  else if 5 ≤ area then "Kitchen"
  else "Other"

/-- Area fallback buckets of `apps/ai/prompts.py` (> 12, > 9, > 4). -/
def areaFallbackPrompts (area : ℚ) : String :=
  if 12 < area then "Living Room"
  else if 9 < area then "Bedroom"
  else if 4 < area then "Kitchen"
  else "Other"

/-- `ai_classify_room` of `apps/ai/services.py`. The guard
`if not raw_name: return "Other"` fires for Python `None` and for the empty
string. -/
def ai_classify_room_services (raw_name : Option String) (area : ℚ) : String :=
  match raw_name with
  | none => "Other"
  | some s =>
    if s = "" then "Other"
    else
      let text := pyStrip (pyUpper s)
      match keywordClassify text with
      | some t => t
      | none => areaFallbackServices area

/-- `ai_classify_room` of `apps/ai/prompts.py`. There is no emptiness guard:
`raw_name.upper()` on Python `None` raises `AttributeError`, modelled as
`Except.error`. -/
def ai_classify_room_prompts (raw_name : Option String) (area : ℚ) :
    Except String String :=
  match raw_name with
  | none => Except.error "AttributeError"
  | some s =>
    let text := pyStrip (pyUpper s)
    match keywordClassify text with
    | some t => Except.ok t
    | none => Except.ok (areaFallbackPrompts area)

/-! ## Boundary extraction and the label matchers
(`apps/uploads/dxf_processor.py` and `apps/uploads/dxf_processor_enhanced.py`)

Entity decoding and polygon repair are abstracted away: the extractor is
given the list of valid polygons present in the drawing and keeps those
whose raw area strictly exceeds the caller's threshold, which is the only
part of `extract_room_boundaries` the matching claims depend on. -/

/-- `extract_room_boundaries(doc, min_area_threshold)`: keep polygons with
`poly.area > min_area_threshold`, in entity order. -/
def extract_room_boundaries (polys : List Polygon) (min_area_threshold : ℚ) :
    List Polygon :=
  polys.filter (fun p => min_area_threshold < p.area)

/-- Body of the boundary loop of the basic `match_rooms`
(`dxf_processor.py` lines 113–160): for each boundary scan *all* labels
(the `used_boundaries` set of the source is written but never read, and no
label is ever marked used); an unmatched boundary becomes
`ROOM_<len(rooms)+1>` only when its scaled rounded area exceeds 5 sqm. -/
def matchRoomsGo (labels : List Label) (area_scale : ℚ) :
    List Polygon → List RoomC → List RoomC
  | [], rooms => rooms
  | poly :: rest, rooms =>
    match labels.find? (fun l => poly.containsPt l.point) with
    | some l =>
      matchRoomsGo labels area_scale rest
        (rooms ++ [⟨l.name, pyRound2 (poly.area * area_scale), poly.centroid⟩])
    | none =>
      let area_sqm := pyRound2 (poly.area * area_scale)
      if 5 < area_sqm then
        matchRoomsGo labels area_scale rest
          (rooms ++ [⟨"ROOM_" ++ toString (rooms.length + 1), area_sqm, poly.centroid⟩])
      else
        matchRoomsGo labels area_scale rest rooms

/-- `match_rooms(doc, area_scale, min_area_threshold)` of
`dxf_processor.py`. -/
def match_rooms (labels : List Label) (polys : List Polygon)
    (area_scale min_area_threshold : ℚ) : List RoomC :=
  matchRoomsGo labels area_scale (extract_room_boundaries polys min_area_threshold) []

/-- Inner scan of the enhanced matcher: the first label index `j` that is
not in `used_labels` and whose point lies inside the boundary
(`dxf_processor_enhanced.py` lines 170–178). -/
def firstUnusedGo (used : List ℕ) (poly : Polygon) :
    ℕ → List Label → Option (ℕ × Label)
  | _, [] => none
  | j, l :: rest =>
    if j ∉ used ∧ poly.containsPt l.point = true then some (j, l)
    else firstUnusedGo used poly (j + 1) rest

/-- First not-yet-consumed label whose anchor lies inside `poly`. -/
def firstUnusedLabel (labels : List Label) (used : List ℕ) (poly : Polygon) :
    Option (ℕ × Label) :=
  firstUnusedGo used poly 0 labels

/-- A room candidate of the enhanced matcher together with the ghost record
of which label index was consumed for it (`None` for a synthesized
`ROOM_<n>`); the source keeps the same information in `best_match` and
`used_labels`. -/
structure ProvRoom where
  room : RoomC
  src : Option ℕ

/-- Loop state of the enhanced matcher: the accumulated rooms and the
`used_labels` set (modelled as the list of indices in insertion order). -/
structure MatchState where
  rooms : List ProvRoom
  used : List ℕ

/-- One iteration of the boundary loop of the enhanced `match_rooms`
(`dxf_processor_enhanced.py` lines 166–196): consume the first unused
contained label, then emit a candidate only when the scaled rounded area
exceeds 0.5 sqm, named after the matched label or `ROOM_<i+1>`. -/
def enhStep (labels : List Label) (area_scale : ℚ) (st : MatchState)
    (ib : ℕ × Polygon) : MatchState :=
  let best := firstUnusedLabel labels st.used ib.2
  let used2 := match best with
    | some jl => st.used ++ [jl.1]
    | none => st.used
  let area_sqm := pyRound2 (ib.2.area * area_scale)
  if 0.5 < area_sqm then
    let room_name := match best with
      | some jl => jl.2.name
      | none => "ROOM_" ++ toString (ib.1 + 1)
    ⟨st.rooms ++ [⟨⟨room_name, area_sqm, ib.2.centroid⟩, best.map (fun jl => jl.1)⟩], used2⟩
  else
    ⟨st.rooms, used2⟩

/-- The enhanced matcher's boundary loop over the already-filtered
boundaries, threading rooms and `used_labels`. -/
def matchRoomsEnhancedAux (labels : List Label) (boundaries : List Polygon)
    (area_scale : ℚ) : MatchState :=
  boundaries.enum.foldl (enhStep labels area_scale) ⟨[], []⟩

/-- `match_rooms(doc, area_scale, min_area_threshold)` of
`dxf_processor_enhanced.py` (lines 156–199): early `[]` when no boundary
survives extraction, then the boundary loop. -/
def match_rooms_enhanced (labels : List Label) (polys : List Polygon)
    (area_scale min_area_threshold : ℚ) : List RoomC :=
  let boundaries := extract_room_boundaries polys min_area_threshold
  if boundaries.isEmpty then []
  else (matchRoomsEnhancedAux labels boundaries area_scale).rooms.map (fun pr => pr.room)

/-! ## Unit resolution and the detection pipelines -/

/-- Mean raw polygon area, `sum(p.area for p in boundaries) / len(boundaries)`. -/
def meanArea (boundaries : List Polygon) : ℚ :=
  (boundaries.map (fun p => p.area)).sum / boundaries.length

/-- `auto_detect_units(boundaries)` of `dxf_processor_enhanced.py`
(lines 17–42): returns the unit name and the raw-area → m² factor. -/
def auto_detect_units (boundaries : List Polygon) : String × ℚ :=
  if boundaries.isEmpty then ("mm", 0.000001)
  else
    let avg_area := meanArea boundaries
    if 1000000 < avg_area then ("mm", 0.000001)
    else if 10 < avg_area ∧ avg_area < 100000 then ("m", 1)
    else if avg_area < 10 then ("cm", 0.0001)
    else ("mm", 0.000001)

/-- Area scale factor chosen by the basic `detect_rooms_from_dxf` for a
scale string (`"mm"` versus anything else). -/
def basicAreaScale (scale : String) : ℚ :=
  if scale = "mm" then 0.000001 else 1

/-- Minimum-area threshold chosen by the basic `detect_rooms_from_dxf`. -/
def basicThreshold (scale : String) : ℚ :=
  if scale = "mm" then 100000 else 0.1

/-- `detect_rooms_from_dxf(file_path, scale)` of `dxf_processor.py`
(lines 163–197), with the parsed drawing abstracted as its labels and valid
polygons: one matching pass, and a single retry with the threshold divided
by 10 when the first pass found no room. -/
def detect_rooms_from_dxf (labels : List Label) (polys : List Polygon)
    (scale : String) : List RoomC :=
  let area_scale := basicAreaScale scale
  let min_threshold := basicThreshold scale
  let rooms := match_rooms labels polys area_scale min_threshold
  if rooms.isEmpty then
    match_rooms labels polys area_scale (min_threshold / 10)
  else rooms

/-- Area scale factor of the enhanced `detect_rooms_from_dxf` for an
explicit valid scale string. -/
def enhancedAreaScale (scale : String) : ℚ :=
  if scale = "mm" then 0.000001 else if scale = "m" then 1 else 0.0001

/-- Minimum-area threshold of the enhanced `detect_rooms_from_dxf` for an
explicit valid scale string. -/
def enhancedThreshold (scale : String) : ℚ :=
  if scale = "mm" then 1000 else if scale = "m" then 0.01 else 10

/-- `detect_rooms_from_dxf(file_path, scale)` of
`dxf_processor_enhanced.py` (lines 202–257): preliminary extraction with
threshold 0 (empty → `[]`), then for an explicit valid scale one matching
pass and a single retry with the threshold divided by 100. The
`"auto"`/unrecognized-scale path crashes in the source (`min_threshold` is
referenced without having been assigned), modelled as `none`. -/
def detect_rooms_from_dxf_enhanced (labels : List Label) (polys : List Polygon)
    (scale : String) : Option (List RoomC) :=
  let preliminary := extract_room_boundaries polys 0
  if preliminary.isEmpty then some []
  else if scale = "mm" ∨ scale = "m" ∨ scale = "cm" then
    let area_scale := enhancedAreaScale scale
    let min_threshold := enhancedThreshold scale
    let rooms := match_rooms_enhanced labels polys area_scale min_threshold
    some (if rooms.isEmpty then
      match_rooms_enhanced labels polys area_scale (min_threshold / 100)
    else rooms)
  else none

/-! ## Database model

Django tables are modelled as lists of rows; a `delete()` on a queryset
becomes a `filter` dropping the selected rows and a `create(...)` appends a
row. Rows are identified by their content. Dates are linearized integers
(e.g. 20240601) — only their order matters to the code. -/

/-- A `rooms.Room` row. -/
structure RoomRow where
  project : ℕ
  name : String
  area : ℚ
  x_center : ℚ
  y_center : ℚ
deriving DecidableEq

/-- An `estimates.RoomEstimate` row. -/
structure RoomEstimateRow where
  project : ℕ
  room : RoomRow
  tiles_sqm : ℚ
  paint_sqm : ℚ
  cement_bags : ℤ
  sand_tons : ℚ
  cost : ℚ
deriving DecidableEq

/-- An `estimates.Estimate` row (one per project). -/
structure EstimateRow where
  project : ℕ
  total_tiles_sqm : ℚ
  total_paint_sqm : ℚ
  cement_bags : ℤ
  sand_tons : ℚ
  total_cost : ℚ
deriving DecidableEq

/-- An `estimates.EstimateLineItem` row; `save()` recomputes
`amount = quantity * rate`, so rows are built through `mkLineItem` only. -/
structure LineItemRow where
  project : ℕ
  room : Option RoomRow
  category : String
  item_name : String
  quantity : ℚ
  unit : String
  rate : ℚ
  amount : ℚ
deriving DecidableEq

/-- An `estimates.RateCard` row. -/
structure RateEntry where
  category : String
  item_name : String
  unit : String
  rate : ℚ
  location : Option String
  effective_from : ℤ
  is_active : Bool
deriving DecidableEq

/-- The database state visible to the estimation engine and the upload
task. -/
structure DB where
  rooms : List RoomRow
  roomEstimates : List RoomEstimateRow
  estimates : List EstimateRow
  lineItems : List LineItemRow
  rateCards : List RateEntry
deriving DecidableEq

/-! ## Rate resolution (`apps/estimates/services_enhanced.py` lines 39–57) -/

/-- The static `DEFAULT_RATES` table, flattened to an association list
keyed by (category, item_name). -/
def DEFAULT_RATES : List ((String × String) × (ℚ × String)) :=
  [ (("Civil", "Brickwork"), (550, "sqm")),
    (("Civil", "Plastering"), (180, "sqm")),
    (("Civil", "Concrete Work"), (8500, "cum")),
    (("Interior", "Floor Tiling"), (1200, "sqm")),
    (("Interior", "Wall Tiling"), (900, "sqm")),
    (("Interior", "False Ceiling"), (250, "sqft")),
    (("Interior", "Woodwork"), (1500, "sqft")),
    (("Painting", "Wall Painting"), (150, "sqm")),
    (("Painting", "Ceiling Painting"), (120, "sqm")),
    (("Electrical", "Wiring"), (450, "point")),
    (("Electrical", "Light Points"), (350, "nos")),
    (("Electrical", "Switch Board"), (800, "nos")),
    (("Plumbing", "Water Supply"), (350, "point")),
    (("Plumbing", "Drainage"), (400, "point")) ]

/-- `DEFAULT_RATES.get(category, {}).get(item_name, {'rate': 0, 'unit': 'sqm'})`. -/
def defaultRateLookup (category item_name : String) : ℚ × String :=
  (DEFAULT_RATES.lookup (category, item_name)).getD (0, "sqm")

/-- The queryset filter of `get_rate_for_item`: rows for this category and
item that are active and effective on or before `today`. -/
def rateMatches (cards : List RateEntry) (category item_name : String)
    (today : ℤ) : List RateEntry :=
  cards.filter (fun c =>
    c.category == category && c.item_name == item_name && c.is_active
      && decide (c.effective_from ≤ today))

/-- `.order_by('-effective_from').first()`: a row with the latest
`effective_from` among the matches. -/
def pickLatest : List RateEntry → Option RateEntry
  | [] => none
  | c :: rest =>
    match pickLatest rest with
    | none => some c
    | some b => if b.effective_from < c.effective_from then some c else some b

/-- `get_rate_for_item(category, item_name)` of `services_enhanced.py`; the
source evaluates `effective_from <= date.today()`, with today's date passed
explicitly here. -/
def get_rate_for_item (cards : List RateEntry) (category item_name : String)
    (today : ℤ) : ℚ × String :=
  match pickLatest (rateMatches cards category item_name today) with
  | some c => (c.rate, c.unit)
  | none => defaultRateLookup category item_name

/-! ## Summary estimation mode (`apps/estimates/services.py` lines 5–65) -/

/-- `cement_bags = int(wall_area * 0.2)` with `wall_area = floor_area * 3`. -/
def summaryCement (room : RoomRow) : ℤ := pyInt (room.area * 3 * 0.2)

/-- `sand_tons = round(cement_bags * 0.035, 2)`. -/
def summarySand (room : RoomRow) : ℚ := pyRound2 ((summaryCement room : ℚ) * 0.035)

/-- `cost = tiles_sqm*1200 + paint_sqm*15 + cement_bags*420 + sand_tons*1400`
(computed on the unrounded tiles/paint quantities, as in the source). -/
def summaryCost (room : RoomRow) : ℚ :=
  room.area * 1200 + room.area * 3 * 15 + (summaryCement room : ℚ) * 420
    + summarySand room * 1400

/-- The `RoomEstimate.objects.create(...)` row of the summary loop. -/
def summaryRoomEstimate (projectId : ℕ) (room : RoomRow) : RoomEstimateRow :=
  ⟨projectId, room, pyRound2 room.area, pyRound2 (room.area * 3),
    summaryCement room, summarySand room, pyRound2 (summaryCost room)⟩

/-- The `Estimate.objects.update_or_create(...)` row: rounded totals over
the project rooms. -/
def summaryEstimateRow (projectId : ℕ) (rooms : List RoomRow) : EstimateRow :=
  ⟨projectId,
    pyRound2 ((rooms.map (fun r => r.area)).sum),
    pyRound2 ((rooms.map (fun r => r.area * 3)).sum),
    (rooms.map summaryCement).sum,
    pyRound2 ((rooms.map summarySand).sum),
    pyRound2 ((rooms.map summaryCost).sum)⟩

/-- `generate_estimate(project_id)`: if the project has no rooms, no write
happens; otherwise all previous `RoomEstimate` rows of the project are
deleted, one fresh row per room is created, and the project's `Estimate`
row is replaced (`update_or_create`) with the rounded totals. -/
def generate_estimate (projectId : ℕ) (db : DB) : DB :=
  let rooms := db.rooms.filter (fun r => r.project == projectId)
  if rooms.isEmpty then db
  else
    { db with
      roomEstimates :=
        db.roomEstimates.filter (fun e => !(e.project == projectId))
          ++ rooms.map (summaryRoomEstimate projectId),
      estimates :=
        db.estimates.filter (fun e => !(e.project == projectId))
          ++ [summaryEstimateRow projectId rooms] }

/-! ## Detailed estimation mode (`apps/estimates/services_enhanced.py`
lines 60–199) -/

/-- `calculate_wall_area(floor_area, room_name)`. -/
def calculate_wall_area (floor_area : ℚ) (room_name : String) : ℚ :=
  let nm := pyUpper room_name
  if strContains nm "TOILET" || strContains nm "BATHROOM" then floor_area * 2.5
  else if strContains nm "BEDROOM" then floor_area * 3
  else if strContains nm "LIVING" || strContains nm "HALL" then floor_area * 3.5
  else floor_area * 3

/-- `EstimateLineItem.objects.create(...)` followed by the model's `save`,
which sets `amount = quantity * rate`. -/
def mkLineItem (projectId : ℕ) (room : RoomRow) (category item_name : String)
    (quantity : ℚ) (rateUnit : ℚ × String) : LineItemRow :=
  ⟨projectId, some room, category, item_name, quantity, rateUnit.2, rateUnit.1,
    quantity * rateUnit.1⟩

/-- The six line items created for one room by
`generate_detailed_estimate`. -/
def roomLineItems (cards : List RateEntry) (today : ℤ) (projectId : ℕ)
    (room : RoomRow) : List LineItemRow :=
  let floor_area := room.area
  let wall_area := calculate_wall_area floor_area room.name
  let light_points : ℤ := max 1 (pyInt (floor_area / 10))
  [ mkLineItem projectId room "Civil" (room.name ++ " - Brickwork")
      (pyRound2 wall_area) (get_rate_for_item cards "Civil" "Brickwork" today),
    mkLineItem projectId room "Civil" (room.name ++ " - Wall Plastering")
      (pyRound2 wall_area) (get_rate_for_item cards "Civil" "Plastering" today),
    mkLineItem projectId room "Interior" (room.name ++ " - Floor Tiling")
      (pyRound2 floor_area) (get_rate_for_item cards "Interior" "Floor Tiling" today),
    mkLineItem projectId room "Painting" (room.name ++ " - Wall Painting")
      (pyRound2 wall_area) (get_rate_for_item cards "Painting" "Wall Painting" today),
    mkLineItem projectId room "Electrical" (room.name ++ " - Light Points")
      (light_points : ℚ) (get_rate_for_item cards "Electrical" "Light Points" today),
    mkLineItem projectId room "Electrical" (room.name ++ " - Switch Boards")
      1 (get_rate_for_item cards "Electrical" "Switch Board" today) ]

/-- The `RoomEstimate.objects.create(...)` row of the detailed loop:
unrounded tiles/paint, `int(wall_area*0.2)` cement, `round(wall_area*0.007, 2)`
sand, and the rounded sum of the room's six line-item amounts. -/
def detailedRoomEstimate (cards : List RateEntry) (today : ℤ) (projectId : ℕ)
    (room : RoomRow) : RoomEstimateRow :=
  let wall_area := calculate_wall_area room.area room.name
  ⟨projectId, room, room.area, wall_area, pyInt (wall_area * 0.2),
    pyRound2 (wall_area * 0.007),
    pyRound2 (((roomLineItems cards today projectId room).map
      (fun i => i.amount)).sum)⟩

/-- The recomputed `Estimate` row of the detailed mode: quantity totals of
the Tiling/Painting line items, derived cement and sand, and the rounded
cost total. -/
def detailedEstimateRow (projectId : ℕ) (items : List LineItemRow) : EstimateRow :=
  let total_tiles :=
    ((items.filter (fun i => strContains i.item_name "Tiling")).map
      (fun i => i.quantity)).sum
  let total_paint :=
    ((items.filter (fun i => strContains i.item_name "Painting")).map
      (fun i => i.quantity)).sum
  let total_cost := (items.map (fun i => i.amount)).sum
  ⟨projectId, pyRound2 total_tiles, pyRound2 total_paint,
    pyInt (total_paint * 0.2), pyRound2 (total_paint * 0.007),
    pyRound2 total_cost⟩

/-- `generate_detailed_estimate(project_id)`: delete the project's previous
line items and room estimates, recreate six line items and one room
estimate per room, and replace the project's `Estimate` row with the
recomputed totals. -/
def generate_detailed_estimate (projectId : ℕ) (today : ℤ) (db : DB) : DB :=
  let rooms := db.rooms.filter (fun r => r.project == projectId)
  if rooms.isEmpty then db
  else
    let items := (rooms.map (roomLineItems db.rateCards today projectId)).flatten
    { db with
      lineItems :=
        db.lineItems.filter (fun i => !(i.project == projectId)) ++ items,
      roomEstimates :=
        db.roomEstimates.filter (fun e => !(e.project == projectId))
          ++ rooms.map (detailedRoomEstimate db.rateCards today projectId),
      estimates :=
        db.estimates.filter (fun e => !(e.project == projectId))
          ++ [detailedEstimateRow projectId items] }

/-! ## The upload task (`apps/uploads/tasks.py` lines 11–53) -/

/-- `process_dxf_upload`, given the detection result `rooms_data`, the room
classifier (`apps.rooms.services.classify_room`, passed as a function) and
the database: delete the project's rooms, save each detected room whose
area is at least 5 sqm, run the detailed estimate generator only when at
least one room was saved, and mark the upload processed (the returned
Bool). -/
def process_dxf_upload (projectId : ℕ) (rooms_data : List RoomC)
    (classify : String → ℚ → String) (today : ℤ) (db : DB) : DB × Bool :=
  let db1 := { db with rooms := db.rooms.filter (fun r => !(r.project == projectId)) }
  let newRooms := rooms_data.filterMap (fun r =>
    if r.area < 5 then none
    else some (⟨projectId, classify r.name r.area, r.area, r.center.1, r.center.2⟩ : RoomRow))
  let db2 := { db1 with rooms := db1.rooms ++ newRooms }
  let db3 := if 0 < newRooms.length then generate_detailed_estimate projectId today db2 else db2
  (db3, true)

/-! ## Supporting lemmas -/

theorem pyInt_eq_floor (q : ℚ) (h : 0 ≤ q) : pyInt q = ⌊q⌋ := by
  simp [pyInt, not_lt.mpr h]

theorem foldl_preserves {σ α : Type} (P : σ → Prop) (f : σ → α → σ)
    (hstep : ∀ s a, P s → P (f s a)) :
    ∀ (l : List α) (s : σ), P s → P (l.foldl f s) := by
  intro l
  induction l with
  | nil => intro s hs; exact hs
  | cons a t ih => intro s hs; exact ih (f s a) (hstep s a hs)

/-! ## Claim C7 (room classification of empty/null names) -/

/-- Claim C7 is false for `apps/ai/services.py`: classifying the empty name
with area 25 returns `"Other"` unconditionally, not the area-fallback value
`"Living Room"` that the claim requires for a large area. -/
theorem c7_counterexample :
    ai_classify_room_services (some "") 25 = "Other"
    ∧ areaFallbackServices 25 = "Living Room"
    ∧ ai_classify_room_services (some "") 25 ≠ areaFallbackServices 25 := by
  have ha : areaFallbackServices 25 = "Living Room" := by norm_num [areaFallbackServices]
  refine ⟨rfl, ha, ?_⟩
  rw [ha]
  decide

/-- Claim C7, amended: in `apps/ai/services.py` an empty or null name
short-circuits to `"Other"` regardless of area (no exception is raised); in
`apps/ai/prompts.py` an empty name does classify via the area buckets, but
a null name raises `AttributeError`. -/
theorem c7_empty_name_classification (area : ℚ) :
    ai_classify_room_services none area = "Other"
    ∧ ai_classify_room_services (some "") area = "Other"
    ∧ ai_classify_room_prompts (some "") area = Except.ok (areaFallbackPrompts area)
    ∧ ai_classify_room_prompts none area = Except.error "AttributeError" := by
  refine ⟨rfl, rfl, ?_, rfl⟩
  have h1 : pyStrip (pyUpper "") = "" := by decide
  have h2 : keywordClassify "" = none := by decide
  simp [ai_classify_room_prompts, h1, h2]

/-! ## Claim C2 (unit auto-detection) -/

/-- Claim C2 is false at the branch endpoint: a single boundary of raw area
10 has mean 10, which the claim places in the `m` branch
(`10 ≤ mean ≤ 100,000`), but `auto_detect_units` returns `mm` because its
middle branch tests `avg_area > 10 and avg_area < 100000` strictly. -/
theorem c2_counterexample :
    meanArea [⟨10, fun _ => false, ((0 : ℚ), (0 : ℚ))⟩] = 10
    ∧ auto_detect_units [⟨10, fun _ => false, ((0 : ℚ), (0 : ℚ))⟩] = ("mm", 0.000001)
    ∧ ("mm", (0.000001 : ℚ)) ≠ ("m", (1 : ℚ)) := by
  have hm : meanArea [⟨10, fun _ => false, ((0 : ℚ), (0 : ℚ))⟩] = 10 := by
    norm_num [meanArea]
  refine ⟨hm, ?_, by simp⟩
  simp only [auto_detect_units, hm]
  norm_num

/-- Claim C2, amended: with zero boundaries the detector returns mm with
factor 1e-6; otherwise it selects mm when the mean exceeds 1,000,000, m
when `10 < mean < 100,000` (both endpoints excluded), cm when the mean is
below 10, and falls back to mm in the remaining cases (mean exactly 10, or
mean between 100,000 and 1,000,000 inclusive). -/
theorem c2_unit_detection (bs : List Polygon) :
    (bs = [] → auto_detect_units bs = ("mm", 0.000001))
    ∧ (bs ≠ [] → 1000000 < meanArea bs → auto_detect_units bs = ("mm", 0.000001))
    ∧ (bs ≠ [] → 10 < meanArea bs → meanArea bs < 100000 →
        auto_detect_units bs = ("m", 1))
    ∧ (bs ≠ [] → meanArea bs < 10 → auto_detect_units bs = ("cm", 0.0001))
    ∧ (bs ≠ [] → meanArea bs = 10 → auto_detect_units bs = ("mm", 0.000001))
    ∧ (bs ≠ [] → 100000 ≤ meanArea bs → meanArea bs ≤ 1000000 →
        auto_detect_units bs = ("mm", 0.000001)) := by
  refine ⟨fun h => by subst h; rfl, ?_, ?_, ?_, ?_, ?_⟩ <;>
    intro hne <;>
    simp only [auto_detect_units, List.isEmpty_eq_false.mpr hne, Bool.false_eq_true,
      if_false]
  · intro h1; rw [if_pos h1]
  · intro h1 h2
    rw [if_neg (by intro hc; linarith), if_pos ⟨h1, h2⟩]
  · intro h1
    rw [if_neg (by intro hc; linarith), if_neg (by intro hc; linarith [hc.1]),
      if_pos h1]
  · intro h1
    rw [if_neg (by rw [h1]; norm_num), if_neg (by rw [h1]; simp), if_neg (by rw [h1]; norm_num)]
  · intro h1 h2
    rw [if_neg (by intro hc; linarith), if_neg (by intro hc; linarith [hc.2]),
      if_neg (by intro hc; linarith)]

/-- Witness for `c2_unit_detection`: one boundary of raw area 1000 has mean
1000 and resolves to meters. -/
theorem c2_unit_detection_witness :
    auto_detect_units [⟨1000, fun _ => false, ((0 : ℚ), (0 : ℚ))⟩] = ("m", 1) := by
  have hm : meanArea [⟨1000, fun _ => false, ((0 : ℚ), (0 : ℚ))⟩] = 1000 := by
    norm_num [meanArea]
  exact (c2_unit_detection _).2.2.1 (by simp) (by rw [hm]; norm_num)
    (by rw [hm]; norm_num)

/-! ## Claim C3 (summary-mode per-room formulas) -/

/-- Claim C3: in summary mode every project room with nonnegative floor
area `A` yields a `RoomEstimate` row with tiles `A`, paint `3A` (each
stored rounded to 2 decimals), `cement_bags = ⌊3A · 0.2⌋`,
`sand_tons = round(cement_bags · 0.035, 2)` and
`cost = A·1200 + 3A·15 + cement_bags·420 + sand_tons·1400` (stored rounded
to 2 decimals). -/
theorem c3_summary_formulas (projectId : ℕ) (db : DB) (r : RoomRow)
    (hmem : r ∈ db.rooms) (hproj : r.project = projectId) (h0 : 0 ≤ r.area) :
    summaryRoomEstimate projectId r ∈ (generate_estimate projectId db).roomEstimates
    ∧ (summaryRoomEstimate projectId r).tiles_sqm = pyRound2 r.area
    ∧ (summaryRoomEstimate projectId r).paint_sqm = pyRound2 (r.area * 3)
    ∧ (summaryRoomEstimate projectId r).cement_bags = ⌊r.area * 3 * 0.2⌋
    ∧ (summaryRoomEstimate projectId r).sand_tons
        = pyRound2 ((⌊r.area * 3 * 0.2⌋ : ℚ) * 0.035)
    ∧ (summaryRoomEstimate projectId r).cost
        = pyRound2 (r.area * 1200 + r.area * 3 * 15 + (⌊r.area * 3 * 0.2⌋ : ℚ) * 420
            + pyRound2 ((⌊r.area * 3 * 0.2⌋ : ℚ) * 0.035) * 1400) := by
  have hcem : summaryCement r = ⌊r.area * 3 * 0.2⌋ := by
    unfold summaryCement
    exact pyInt_eq_floor _ (by positivity)
  have hfil : r ∈ db.rooms.filter (fun x => x.project == projectId) :=
    List.mem_filter.mpr ⟨hmem, by simp [hproj]⟩
  have hne : (db.rooms.filter (fun x => x.project == projectId)).isEmpty = false :=
    List.isEmpty_eq_false.mpr (List.ne_nil_of_mem hfil)
  refine ⟨?_, rfl, rfl, hcem, ?_, ?_⟩
  · simp only [generate_estimate, hne, Bool.false_eq_true, if_false]
    exact List.mem_append.mpr (Or.inr (List.mem_map_of_mem _ hfil))
  · simp only [summaryRoomEstimate, summarySand, hcem]
  · simp only [summaryRoomEstimate, summaryCost, summarySand, hcem]

/-- Witness for `c3_summary_formulas`: the spec's worked example. A single
room of 12 m² produces cement_bags = 7 and sand_tons = 0.25, and its
estimate row is persisted by `generate_estimate`. -/
theorem c3_summary_formulas_witness :
    (summaryRoomEstimate 1 ⟨1, "MASTER BED", 12, 0, 0⟩).cement_bags = 7
    ∧ (summaryRoomEstimate 1 ⟨1, "MASTER BED", 12, 0, 0⟩).sand_tons = 0.25
    ∧ summaryRoomEstimate 1 ⟨1, "MASTER BED", 12, 0, 0⟩
        ∈ (generate_estimate 1 ⟨[⟨1, "MASTER BED", 12, 0, 0⟩], [], [], [], []⟩).roomEstimates := by
  have h := c3_summary_formulas 1 ⟨[⟨1, "MASTER BED", 12, 0, 0⟩], [], [], [], []⟩
    ⟨1, "MASTER BED", 12, 0, 0⟩ (by simp) rfl (by norm_num)
  refine ⟨?_, ?_, h.1⟩
  · rw [h.2.2.2.1]; norm_num
  · rw [h.2.2.2.2.1]
    norm_num [pyRound2]

/-! ## Claim C4 (rate resolution) -/

theorem pickLatest_eq_none_iff (l : List RateEntry) : pickLatest l = none ↔ l = [] := by
  cases l with
  | nil => simp [pickLatest]
  | cons c rest =>
    simp only [pickLatest]
    cases h : pickLatest rest with
    | none => simp [h]
    | some b => simp only [h]; split <;> simp

theorem pickLatest_spec (l : List RateEntry) (c : RateEntry)
    (h : pickLatest l = some c) :
    c ∈ l ∧ ∀ d ∈ l, d.effective_from ≤ c.effective_from := by
  induction l generalizing c with
  | nil => simp [pickLatest] at h
  | cons a rest ih =>
    simp only [pickLatest] at h
    cases hr : pickLatest rest with
    | none =>
      rw [hr] at h
      obtain rfl : a = c := by simpa using h
      have : rest = [] := (pickLatest_eq_none_iff rest).mp hr
      subst this
      exact ⟨List.mem_singleton_self _, by intro d hd; simp at hd; simp [hd]⟩
    | some b =>
      simp only [hr] at h
      obtain ⟨hbmem, hbmax⟩ := ih b hr
      by_cases hlt : b.effective_from < a.effective_from
      · rw [if_pos hlt] at h
        obtain rfl : a = c := by simpa using h
        refine ⟨List.mem_cons_self _ _, ?_⟩
        intro d hd
        rcases List.mem_cons.mp hd with rfl | hd
        · exact le_refl _
        · exact le_trans (hbmax d hd) (le_of_lt hlt)
      · rw [if_neg hlt] at h
        obtain rfl : b = c := by simpa using h
        refine ⟨List.mem_cons_of_mem _ hbmem, ?_⟩
        intro d hd
        rcases List.mem_cons.mp hd with rfl | hd
        · exact le_of_not_lt hlt
        · exact hbmax d hd

/-- Claim C4: rate resolution returns the rate and unit of an active
matching rate entry with the latest `effective_from ≤ today`; with no such
entry it returns the static default-table value, and with no default-table
entry either it returns `(0, "sqm")`. It is a total function — no error is
raised or surfaced. -/
theorem c4_rate_resolution (cards : List RateEntry) (category item_name : String)
    (today : ℤ) :
    (rateMatches cards category item_name today ≠ [] →
      ∃ c, c ∈ rateMatches cards category item_name today
        ∧ (∀ d ∈ rateMatches cards category item_name today,
            d.effective_from ≤ c.effective_from)
        ∧ get_rate_for_item cards category item_name today = (c.rate, c.unit))
    ∧ (rateMatches cards category item_name today = [] →
      get_rate_for_item cards category item_name today
        = defaultRateLookup category item_name)
    ∧ (rateMatches cards category item_name today = [] →
      DEFAULT_RATES.lookup (category, item_name) = none →
      get_rate_for_item cards category item_name today = (0, "sqm")) := by
  refine ⟨?_, ?_, ?_⟩
  · intro hne
    cases hp : pickLatest (rateMatches cards category item_name today) with
    | none => exact absurd ((pickLatest_eq_none_iff _).mp hp) hne
    | some c =>
      obtain ⟨hmem, hmax⟩ := pickLatest_spec _ _ hp
      exact ⟨c, hmem, hmax, by simp [get_rate_for_item, hp]⟩
  · intro hnil
    have hp : pickLatest (rateMatches cards category item_name today) = none :=
      (pickLatest_eq_none_iff _).mpr hnil
    simp [get_rate_for_item, hp]
  · intro hnil hlook
    have hp : pickLatest (rateMatches cards category item_name today) = none :=
      (pickLatest_eq_none_iff _).mpr hnil
    simp [get_rate_for_item, hp, defaultRateLookup, hlook]

/-- Witness for `c4_rate_resolution`: the spec's scenario — two active
(Civil, Brickwork) entries effective 2023-01-01 (rate 500) and 2024-01-01
(rate 550), queried as of 2024-06-01, resolve to rate 550; and an empty
rate table with an unknown item yields `(0, "sqm")`. -/
theorem c4_rate_resolution_witness :
    rateMatches
        [⟨"Civil", "Brickwork", "sqm", 500, none, 20230101, true⟩,
         ⟨"Civil", "Brickwork", "sqm", 550, none, 20240101, true⟩]
        "Civil" "Brickwork" 20240601 ≠ []
    ∧ get_rate_for_item
        [⟨"Civil", "Brickwork", "sqm", 500, none, 20230101, true⟩,
         ⟨"Civil", "Brickwork", "sqm", 550, none, 20240101, true⟩]
        "Civil" "Brickwork" 20240601 = (550, "sqm")
    ∧ (∃ c, c ∈ rateMatches
          [⟨"Civil", "Brickwork", "sqm", 500, none, 20230101, true⟩,
           ⟨"Civil", "Brickwork", "sqm", 550, none, 20240101, true⟩]
          "Civil" "Brickwork" 20240601
        ∧ (∀ d ∈ rateMatches
              [⟨"Civil", "Brickwork", "sqm", 500, none, 20230101, true⟩,
               ⟨"Civil", "Brickwork", "sqm", 550, none, 20240101, true⟩]
              "Civil" "Brickwork" 20240601,
            d.effective_from ≤ c.effective_from)
        ∧ get_rate_for_item
            [⟨"Civil", "Brickwork", "sqm", 500, none, 20230101, true⟩,
             ⟨"Civil", "Brickwork", "sqm", 550, none, 20240101, true⟩]
            "Civil" "Brickwork" 20240601 = (c.rate, c.unit))
    ∧ get_rate_for_item [] "Civil" "Gold Plating" 20240601 = (0, "sqm") := by
  have hm : rateMatches
      [⟨"Civil", "Brickwork", "sqm", 500, none, 20230101, true⟩,
       ⟨"Civil", "Brickwork", "sqm", 550, none, 20240101, true⟩]
      "Civil" "Brickwork" 20240601 ≠ [] := by
    simp [rateMatches]
  refine ⟨hm, ?_, (c4_rate_resolution _ _ _ _).1 hm, ?_⟩
  · simp [get_rate_for_item, rateMatches, pickLatest, defaultRateLookup]
  · exact (c4_rate_resolution [] "Civil" "Gold Plating" 20240601).2.2 (by simp [rateMatches])
      (by simp [DEFAULT_RATES])

/-! ## Claim C8 (regeneration idempotence) -/

theorem filter_idem {α : Type} (f : α → Bool) (l : List α) :
    (l.filter f).filter f = l.filter f := by
  induction l with
  | nil => rfl
  | cons a t ih => cases hfa : f a <;> simp [List.filter_cons, hfa, ih]

theorem filter_neq_nil_of_all {α : Type} (key : α → ℕ) (p : ℕ) (l : List α)
    (h : ∀ x ∈ l, key x = p) :
    l.filter (fun x => !(key x == p)) = [] := by
  rw [List.filter_eq_nil_iff]
  intro a ha
  simp [h a ha]

theorem generate_estimate_rooms (p : ℕ) (db : DB) :
    (generate_estimate p db).rooms = db.rooms := by
  cases hE : (db.rooms.filter (fun r => r.project == p)).isEmpty <;>
    simp [generate_estimate, hE]

theorem generate_detailed_estimate_rooms (p : ℕ) (today : ℤ) (db : DB) :
    (generate_detailed_estimate p today db).rooms = db.rooms := by
  cases hE : (db.rooms.filter (fun r => r.project == p)).isEmpty <;>
    simp [generate_detailed_estimate, hE]

theorem generate_detailed_estimate_rateCards (p : ℕ) (today : ℤ) (db : DB) :
    (generate_detailed_estimate p today db).rateCards = db.rateCards := by
  cases hE : (db.rooms.filter (fun r => r.project == p)).isEmpty <;>
    simp [generate_detailed_estimate, hE]

theorem roomLineItems_project (cards : List RateEntry) (today : ℤ) (p : ℕ)
    (room : RoomRow) : ∀ i ∈ roomLineItems cards today p room, i.project = p := by
  intro i hi
  simp only [roomLineItems, mkLineItem, List.mem_cons, List.not_mem_nil, or_false] at hi
  rcases hi with rfl | rfl | rfl | rfl | rfl | rfl <;> rfl

theorem flattenItems_project (cards : List RateEntry) (today : ℤ) (p : ℕ)
    (rooms : List RoomRow) :
    ∀ i ∈ (rooms.map (roomLineItems cards today p)).flatten, i.project = p := by
  intro i hi
  rw [List.mem_flatten] at hi
  obtain ⟨l, hl, hil⟩ := hi
  rw [List.mem_map] at hl
  obtain ⟨room, _, rfl⟩ := hl
  exact roomLineItems_project cards today p room i hil

/-- Claim C8: both estimation modes are idempotent — rerunning on the
resulting database (same rooms, same rate cards) deletes exactly the rows
the first run produced and recreates identical ones, leaving the database
unchanged. -/
theorem c8_regeneration_idempotent (projectId : ℕ) (today : ℤ) (db : DB) :
    generate_estimate projectId (generate_estimate projectId db)
      = generate_estimate projectId db
    ∧ generate_detailed_estimate projectId today
        (generate_detailed_estimate projectId today db)
      = generate_detailed_estimate projectId today db := by
  constructor
  · by_cases hE : (db.rooms.filter (fun r => r.project == projectId)).isEmpty = true
    · have h1 : generate_estimate projectId db = db := by
        simp [generate_estimate, hE]
      rw [h1, h1]
    · have hE' : (db.rooms.filter (fun r => r.project == projectId)).isEmpty = false :=
        Bool.not_eq_true _ ▸ eq_false_of_ne_true hE
      have hmap : ((db.rooms.filter (fun r => r.project == projectId)).map
          (summaryRoomEstimate projectId)).filter
            (fun e => !(e.project == projectId)) = [] := by
        refine filter_neq_nil_of_all _ _ _ ?_
        intro x hx
        rw [List.mem_map] at hx
        obtain ⟨r, _, rfl⟩ := hx
        rfl
      have hrow : ([summaryEstimateRow projectId
          (db.rooms.filter (fun r => r.project == projectId))].filter
            (fun e => !(e.project == projectId))) = [] := by
        refine filter_neq_nil_of_all _ _ _ ?_
        intro x hx
        simp only [List.mem_singleton] at hx
        subst hx
        rfl
      simp [generate_estimate, hE', List.filter_append, filter_idem, hmap, hrow]
  · by_cases hE : (db.rooms.filter (fun r => r.project == projectId)).isEmpty = true
    · have h1 : generate_detailed_estimate projectId today db = db := by
        simp [generate_detailed_estimate, hE]
      rw [h1, h1]
    · have hE' : (db.rooms.filter (fun r => r.project == projectId)).isEmpty = false :=
        Bool.not_eq_true _ ▸ eq_false_of_ne_true hE
      have hitems : (((db.rooms.filter (fun r => r.project == projectId)).map
          (roomLineItems db.rateCards today projectId)).flatten.filter
            (fun i => !(i.project == projectId))) = [] :=
        filter_neq_nil_of_all _ _ _ (flattenItems_project _ _ _ _)
      have hres : ((db.rooms.filter (fun r => r.project == projectId)).map
          (detailedRoomEstimate db.rateCards today projectId)).filter
            (fun e => !(e.project == projectId)) = [] := by
        refine filter_neq_nil_of_all _ _ _ ?_
        intro x hx
        rw [List.mem_map] at hx
        obtain ⟨r, _, rfl⟩ := hx
        rfl
      have hrow : ([detailedEstimateRow projectId
          ((db.rooms.filter (fun r => r.project == projectId)).map
            (roomLineItems db.rateCards today projectId)).flatten].filter
              (fun e => !(e.project == projectId))) = [] := by
        refine filter_neq_nil_of_all _ _ _ ?_
        intro x hx
        simp only [List.mem_singleton] at hx
        subst hx
        rfl
      simp [generate_detailed_estimate, hE', List.filter_append, filter_idem,
        hitems, hres, hrow]

/-! ## Claims C9 and C10 (upload task frame effects) -/

theorem roomrow_filter_opposite (p : ℕ) (l : List RoomRow) :
    (l.filter (fun x => !(x.project == p))).filter (fun x => x.project == p) = [] := by
  rw [List.filter_eq_nil_iff]
  intro a ha
  have h := List.of_mem_filter ha
  simp only [Bool.not_eq_true'] at h
  simp [h]

theorem process_dxf_upload_rooms (projectId : ℕ) (rooms_data : List RoomC)
    (classify : String → ℚ → String) (today : ℤ) (db : DB) :
    (process_dxf_upload projectId rooms_data classify today db).1.rooms
      = db.rooms.filter (fun x => !(x.project == projectId))
        ++ rooms_data.filterMap (fun r =>
            if r.area < 5 then none
            else some (⟨projectId, classify r.name r.area, r.area,
              r.center.1, r.center.2⟩ : RoomRow)) := by
  simp only [process_dxf_upload]
  split
  · rw [generate_detailed_estimate_rooms]
  · rfl

/-- Claim C9: when every detected room has area below 5 sqm, the task still
deletes all of the project's rooms, leaves the previously stored room
estimates, estimate totals and line items untouched (the generator is not
invoked), and still marks the upload processed. -/
theorem c9_small_rooms_skip_estimate (projectId : ℕ) (rooms_data : List RoomC)
    (classify : String → ℚ → String) (today : ℤ) (db : DB)
    (h : ∀ r ∈ rooms_data, r.area < 5) :
    ((process_dxf_upload projectId rooms_data classify today db).1.rooms.filter
      (fun x => x.project == projectId)) = []
    ∧ (process_dxf_upload projectId rooms_data classify today db).1.roomEstimates
        = db.roomEstimates
    ∧ (process_dxf_upload projectId rooms_data classify today db).1.estimates
        = db.estimates
    ∧ (process_dxf_upload projectId rooms_data classify today db).1.lineItems
        = db.lineItems
    ∧ (process_dxf_upload projectId rooms_data classify today db).2 = true := by
  have hnew : rooms_data.filterMap (fun r =>
      if r.area < 5 then none
      else some (⟨projectId, classify r.name r.area, r.area,
        r.center.1, r.center.2⟩ : RoomRow)) = [] :=
    List.filterMap_eq_nil_iff.mpr (fun r hr => by simp [h r hr])
  refine ⟨?_, ?_, ?_, ?_, rfl⟩
  · rw [process_dxf_upload_rooms, hnew, List.append_nil]
    exact roomrow_filter_opposite projectId db.rooms
  all_goals
    simp only [process_dxf_upload, hnew, List.length_nil, Nat.lt_irrefl, if_false,
      List.append_nil]

/-- Witness for `c9_small_rooms_skip_estimate`: one detected 3 sqm room, a
database holding an old room and an old estimate row for project 1. -/
theorem c9_small_rooms_skip_estimate_witness :
    ((process_dxf_upload 1 [⟨"A", 3, ((0 : ℚ), (0 : ℚ))⟩] (fun n _ => n) 0
        ⟨[⟨1, "OLD", 30, 0, 0⟩], [], [⟨1, 30, 90, 21, 0.74, 40000⟩], [], []⟩).1.rooms.filter
      (fun x => x.project == 1)) = []
    ∧ (process_dxf_upload 1 [⟨"A", 3, ((0 : ℚ), (0 : ℚ))⟩] (fun n _ => n) 0
        ⟨[⟨1, "OLD", 30, 0, 0⟩], [], [⟨1, 30, 90, 21, 0.74, 40000⟩], [], []⟩).1.estimates
      = [⟨1, 30, 90, 21, 0.74, 40000⟩]
    ∧ (process_dxf_upload 1 [⟨"A", 3, ((0 : ℚ), (0 : ℚ))⟩] (fun n _ => n) 0
        ⟨[⟨1, "OLD", 30, 0, 0⟩], [], [⟨1, 30, 90, 21, 0.74, 40000⟩], [], []⟩).2 = true := by
  have h := c9_small_rooms_skip_estimate 1 [⟨"A", 3, ((0 : ℚ), (0 : ℚ))⟩] (fun n _ => n) 0
    ⟨[⟨1, "OLD", 30, 0, 0⟩], [], [⟨1, 30, 90, 21, 0.74, 40000⟩], [], []⟩
    (by intro r hr; simp only [List.mem_singleton] at hr; subst hr; norm_num)
  exact ⟨h.1, h.2.2.1, h.2.2.2.2⟩

/-- Claim C10: every room row of the project present after the upload task
has area ≥ 5 sqm — the `area < 5` skip applies uniformly, whether the
detected room carried a matched label name or a synthesized one. -/
theorem c10_persisted_rooms_min_area (projectId : ℕ) (rooms_data : List RoomC)
    (classify : String → ℚ → String) (today : ℤ) (db : DB) (r : RoomRow)
    (hmem : r ∈ (process_dxf_upload projectId rooms_data classify today db).1.rooms)
    (hproj : r.project = projectId) :
    5 ≤ r.area := by
  rw [process_dxf_upload_rooms] at hmem
  rcases List.mem_append.mp hmem with hold | hnew
  · have h := List.of_mem_filter hold
    simp [hproj] at h
  · rw [List.mem_filterMap] at hnew
    obtain ⟨rc, _, hsome⟩ := hnew
    by_cases hlt : rc.area < 5
    · rw [if_pos hlt] at hsome
      exact absurd hsome (by simp)
    · rw [if_neg hlt] at hsome
      obtain rfl : (⟨projectId, classify rc.name rc.area, rc.area,
          rc.center.1, rc.center.2⟩ : RoomRow) = r := by simpa using hsome
      exact not_lt.mp hlt

/-- Witness for `c10_persisted_rooms_min_area`: of two detected rooms (10
sqm and 2 sqm) only the 10 sqm one is persisted, and the theorem applies to
it. -/
theorem c10_persisted_rooms_min_area_witness :
    (⟨1, "HALL", 10, 0, 0⟩ : RoomRow)
      ∈ (process_dxf_upload 1 [⟨"HALL", 10, ((0 : ℚ), (0 : ℚ))⟩, ⟨"TINY", 2, ((0 : ℚ), (0 : ℚ))⟩]
          (fun n _ => n) 0 ⟨[], [], [], [], []⟩).1.rooms
    ∧ 5 ≤ (⟨1, "HALL", 10, 0, 0⟩ : RoomRow).area := by
  have hmem : (⟨1, "HALL", 10, 0, 0⟩ : RoomRow)
      ∈ (process_dxf_upload 1 [⟨"HALL", 10, ((0 : ℚ), (0 : ℚ))⟩, ⟨"TINY", 2, ((0 : ℚ), (0 : ℚ))⟩]
          (fun n _ => n) 0 ⟨[], [], [], [], []⟩).1.rooms := by
    rw [process_dxf_upload_rooms]
    have h10 : ¬ ((10 : ℚ) < 5) := by norm_num
    have h2 : ((2 : ℚ) < 5) := by norm_num
    simp [List.filterMap, h10, h2]
  exact ⟨hmem, c10_persisted_rooms_min_area 1 _ (fun n _ => n) 0
    ⟨[], [], [], [], []⟩ _ hmem rfl⟩

/-! ## Claim C5 (unmatched boundaries) -/

/-- Claim C5 is false for the basic matcher: a label-less boundary of
scaled area 3 sqm (well above the claimed 0.5 sqm floor) produces no
candidate at all, because `dxf_processor.py` only keeps unnamed rooms with
area above 5 sqm. -/
theorem c5_counterexample :
    match_rooms [] [⟨3, fun _ => false, ((0 : ℚ), (0 : ℚ))⟩] 1 0 = []
    ∧ (0.5 : ℚ) < pyRound2 (3 * 1) := by
  constructor
  · have h3 : pyRound2 ((3 : ℚ) * 1) = 3 := by norm_num [pyRound2]
    have h3b : pyRound2 (3 : ℚ) = 3 := by norm_num [pyRound2]
    norm_num [match_rooms, extract_room_boundaries, matchRoomsGo, List.find?, h3, h3b]
  · norm_num [pyRound2]

/-- Claim C5, amended: in the *enhanced* matcher a boundary at position `i`
(0-based) that no not-yet-consumed label matches yields the candidate
`ROOM_<i+1>` exactly when its scaled rounded area exceeds 0.5 sqm, and no
candidate otherwise; the label-consumption state is unchanged either way.
(The basic matcher instead uses a 5 sqm floor and numbers unnamed rooms by
candidate count, see `c5_counterexample`.) -/
theorem c5_unmatched_boundary (labels : List Label) (area_scale : ℚ)
    (st : MatchState) (i : ℕ) (poly : Polygon)
    (hnone : firstUnusedLabel labels st.used poly = none) :
    (0.5 < pyRound2 (poly.area * area_scale) →
      enhStep labels area_scale st (i, poly)
        = ⟨st.rooms ++ [⟨⟨"ROOM_" ++ toString (i + 1),
            pyRound2 (poly.area * area_scale), poly.centroid⟩, none⟩], st.used⟩)
    ∧ (¬ 0.5 < pyRound2 (poly.area * area_scale) →
      enhStep labels area_scale st (i, poly) = ⟨st.rooms, st.used⟩) := by
  constructor <;> intro h <;> simp [enhStep, hnone, h]

/-- Witness for `c5_unmatched_boundary`: a 3 sqm boundary with no labels
becomes `ROOM_1`. -/
theorem c5_unmatched_boundary_witness :
    enhStep [] 1 ⟨[], []⟩ (0, ⟨3, fun _ => false, ((0 : ℚ), (0 : ℚ))⟩)
      = ⟨[⟨⟨"ROOM_1", 3, ((0 : ℚ), (0 : ℚ))⟩, none⟩], []⟩ := by
  have h := (c5_unmatched_boundary [] 1 ⟨[], []⟩ 0
      ⟨3, fun _ => false, ((0 : ℚ), (0 : ℚ))⟩ rfl).1 (by norm_num [pyRound2])
  rw [h]
  have hn : ("ROOM_" ++ toString (0 + 1)) = "ROOM_1" := by decide
  have ha : pyRound2 ((3 : ℚ) * 1) = 3 := by norm_num [pyRound2]
  have hb : pyRound2 (3 : ℚ) = 3 := by norm_num [pyRound2]
  simp [hn, ha, hb]

/-! ## Claim C6 (retry ladder) -/

/-- Claim C6 is false: a drawing whose only boundary (raw area 5000 mm²,
holding a label) is filtered out at thresholds 100000 and 10000 yields an
empty result from the basic pipeline, even though the claimed second retry
at threshold/100 = 1000 would have matched a room. -/
theorem c6_counterexample :
    detect_rooms_from_dxf [⟨"HALL", ((0 : ℚ), (0 : ℚ))⟩]
        [⟨5000, fun _ => true, ((0 : ℚ), (0 : ℚ))⟩] "mm" = []
    ∧ match_rooms [⟨"HALL", ((0 : ℚ), (0 : ℚ))⟩]
        [⟨5000, fun _ => true, ((0 : ℚ), (0 : ℚ))⟩]
        (basicAreaScale "mm") (basicThreshold "mm" / 100) ≠ [] := by
  constructor
  · norm_num [detect_rooms_from_dxf, basicAreaScale, basicThreshold, match_rooms,
      extract_room_boundaries, matchRoomsGo]
  · norm_num [match_rooms, basicAreaScale, basicThreshold, extract_room_boundaries,
      matchRoomsGo, List.find?]

theorem extract_nil_mono (polys : List Polygon) (t : ℚ)
    (h0 : extract_room_boundaries polys 0 = []) (ht : 0 ≤ t) :
    extract_room_boundaries polys t = [] := by
  unfold extract_room_boundaries at h0 ⊢
  rw [List.filter_eq_nil_iff] at h0 ⊢
  intro a ha
  have h := h0 a ha
  simp only [decide_eq_true_eq] at h ⊢
  intro hc
  exact h (by linarith)

/-- Claim C6, amended: when the first matching pass is empty, each pipeline
performs exactly one retry — the basic one with the threshold divided by
10, the enhanced one with the threshold divided by 100 — and returns that
retry's result (possibly still empty); there is no two-step ladder in
either pipeline. -/
theorem c6_single_retry (labels : List Label) (polys : List Polygon) :
    (∀ scale : String,
      match_rooms labels polys (basicAreaScale scale) (basicThreshold scale) = [] →
      detect_rooms_from_dxf labels polys scale
        = match_rooms labels polys (basicAreaScale scale) (basicThreshold scale / 10))
    ∧ (∀ scale : String, scale = "mm" ∨ scale = "m" ∨ scale = "cm" →
      match_rooms_enhanced labels polys (enhancedAreaScale scale)
          (enhancedThreshold scale) = [] →
      detect_rooms_from_dxf_enhanced labels polys scale
        = some (match_rooms_enhanced labels polys (enhancedAreaScale scale)
            (enhancedThreshold scale / 100))) := by
  constructor
  · intro scale h
    simp [detect_rooms_from_dxf, h]
  · intro scale hvalid h
    by_cases hprelim : (extract_room_boundaries polys 0).isEmpty = true
    · have hnil : extract_room_boundaries polys 0 = [] := by simpa using hprelim
      have hthr : (0 : ℚ) ≤ enhancedThreshold scale / 100 := by
        rcases hvalid with rfl | rfl | rfl
        · rw [show enhancedThreshold "mm" = 1000 from rfl]; norm_num
        · rw [show enhancedThreshold "m" = 0.01 from rfl]; norm_num
        · rw [show enhancedThreshold "cm" = 10 from rfl]; norm_num
      have hmatch : match_rooms_enhanced labels polys (enhancedAreaScale scale)
          (enhancedThreshold scale / 100) = [] := by
        unfold match_rooms_enhanced
        rw [extract_nil_mono polys _ hnil hthr]
        rfl
      simp [detect_rooms_from_dxf_enhanced, hprelim, hmatch]
    · have hprelim' : (extract_room_boundaries polys 0).isEmpty = false :=
        Bool.not_eq_true _ ▸ eq_false_of_ne_true hprelim
      simp [detect_rooms_from_dxf_enhanced, hprelim', hvalid, h]

/-- Witness for `c6_single_retry`: the empty drawing, under both pipelines. -/
theorem c6_single_retry_witness :
    detect_rooms_from_dxf [] [] "mm"
      = match_rooms [] [] (basicAreaScale "mm") (basicThreshold "mm" / 10)
    ∧ detect_rooms_from_dxf_enhanced [] [] "m"
      = some (match_rooms_enhanced [] [] (enhancedAreaScale "m")
          (enhancedThreshold "m" / 100)) := by
  constructor
  · exact (c6_single_retry [] []).1 "mm" rfl
  · exact (c6_single_retry [] []).2 "m" (Or.inr (Or.inl rfl)) rfl

/-! ## Claim C1 (label matching pairs each label at most once) -/

theorem firstUnusedGo_some (used : List ℕ) (poly : Polygon) :
    ∀ (ls : List Label) (j k : ℕ) (l : Label),
      firstUnusedGo used poly j ls = some (k, l) →
      j ≤ k ∧ ls[k - j]? = some l ∧ k ∉ used ∧ poly.containsPt l.point = true
        ∧ ∀ m, j ≤ m → m < k → ∀ lm, ls[m - j]? = some lm →
            m ∈ used ∨ poly.containsPt lm.point = false := by
  intro ls
  induction ls with
  | nil => intro j k l h; simp [firstUnusedGo] at h
  | cons l0 rest ih =>
    intro j k l h
    simp only [firstUnusedGo] at h
    by_cases hc : j ∉ used ∧ poly.containsPt l0.point = true
    · rw [if_pos hc] at h
      have h' : (j, l0) = (k, l) := Option.some.inj h
      obtain ⟨rfl, rfl⟩ := Prod.ext_iff.mp h'
      refine ⟨le_refl _, by simp, hc.1, hc.2, ?_⟩
      intro m h1 h2
      exact absurd h2 (not_lt.mpr h1)
    · rw [if_neg hc] at h
      obtain ⟨hjk, hget, hku, hcont, hprev⟩ := ih (j + 1) k l h
      refine ⟨by omega, ?_, hku, hcont, ?_⟩
      · have hkj : k - j = (k - (j + 1)) + 1 := by omega
        rw [hkj, List.getElem?_cons_succ]
        exact hget
      · intro m hjm hmk lm hlm
        by_cases hmj : m = j
        · subst hmj
          rw [Nat.sub_self] at hlm
          have hl0 : lm = l0 := by
            rw [List.getElem?_cons_zero] at hlm
            exact (Option.some.inj hlm).symm
          subst hl0
          cases hb : poly.containsPt lm.point with
          | false => exact Or.inr rfl
          | true =>
            left
            by_contra hju
            exact hc ⟨hju, hb⟩
        · have hm1 : j + 1 ≤ m := by omega
          have hmm : m - j = (m - (j + 1)) + 1 := by omega
          rw [hmm, List.getElem?_cons_succ] at hlm
          exact hprev m hm1 hmk lm hlm

theorem firstUnusedLabel_spec (labels : List Label) (used : List ℕ) (poly : Polygon)
    (k : ℕ) (l : Label) (h : firstUnusedLabel labels used poly = some (k, l)) :
    labels[k]? = some l ∧ k ∉ used ∧ poly.containsPt l.point = true
      ∧ ∀ m, m < k → ∀ lm, labels[m]? = some lm →
          m ∈ used ∨ poly.containsPt lm.point = false := by
  obtain ⟨_, hget, hku, hcont, hprev⟩ := firstUnusedGo_some used poly labels 0 k l h
  rw [Nat.sub_zero] at hget
  refine ⟨hget, hku, hcont, ?_⟩
  intro m hmk lm hlm
  exact hprev m (Nat.zero_le m) hmk lm (by rw [Nat.sub_zero]; exact hlm)

/-- Loop invariant of the enhanced matcher: `used_labels` stays
duplicate-free, consumed label indices of emitted rooms come from
`used_labels`, and every consumed label names its room. -/
def MatchInv (labels : List Label) (st : MatchState) : Prop :=
  st.used.Nodup
  ∧ List.Sublist (st.rooms.filterMap (fun pr => pr.src)) st.used
  ∧ ∀ pr ∈ st.rooms, ∀ j, pr.src = some j →
      ∃ l, labels[j]? = some l ∧ pr.room.name = l.name

theorem enhStep_preserves (labels : List Label) (area_scale : ℚ)
    (st : MatchState) (ib : ℕ × Polygon) (hinv : MatchInv labels st) :
    MatchInv labels (enhStep labels area_scale st ib) := by
  obtain ⟨hnd, hsub, hname⟩ := hinv
  cases hbest : firstUnusedLabel labels st.used ib.2 with
  | none =>
    by_cases hA : (0.5 : ℚ) < pyRound2 (ib.2.area * area_scale)
    · have hstep : enhStep labels area_scale st ib
          = ⟨st.rooms ++ [⟨⟨"ROOM_" ++ toString (ib.1 + 1),
              pyRound2 (ib.2.area * area_scale), ib.2.centroid⟩, none⟩], st.used⟩ := by
        simp [enhStep, hbest, hA]
      rw [hstep]
      refine ⟨hnd, ?_, ?_⟩
      · simpa [List.filterMap_append] using hsub
      · intro pr hpr j hj
        rcases List.mem_append.mp hpr with hpr | hpr
        · exact hname pr hpr j hj
        · simp only [List.mem_singleton] at hpr
          subst hpr
          simp at hj
    · have hstep : enhStep labels area_scale st ib = ⟨st.rooms, st.used⟩ := by
        simp [enhStep, hbest, hA]
      rw [hstep]
      exact ⟨hnd, hsub, hname⟩
  | some jl =>
    obtain ⟨j, l⟩ := jl
    obtain ⟨hget, hju, hcont, _⟩ := firstUnusedLabel_spec labels st.used ib.2 j l hbest
    have hnd2 : (st.used ++ [j]).Nodup := by
      rw [List.nodup_append_comm]
      simpa [List.nodup_cons] using ⟨hju, hnd⟩
    by_cases hA : (0.5 : ℚ) < pyRound2 (ib.2.area * area_scale)
    · have hstep : enhStep labels area_scale st ib
          = ⟨st.rooms ++ [⟨⟨l.name, pyRound2 (ib.2.area * area_scale), ib.2.centroid⟩,
              some j⟩], st.used ++ [j]⟩ := by
        simp [enhStep, hbest, hA]
      rw [hstep]
      refine ⟨hnd2, ?_, ?_⟩
      · rw [List.filterMap_append]
        simpa using hsub.append (List.Sublist.refl [j])
      · intro pr hpr jj hjj
        rcases List.mem_append.mp hpr with hpr | hpr
        · exact hname pr hpr jj hjj
        · simp only [List.mem_singleton] at hpr
          subst hpr
          obtain rfl : j = jj := by simpa using hjj
          exact ⟨l, hget, rfl⟩
    · have hstep : enhStep labels area_scale st ib = ⟨st.rooms, st.used ++ [j]⟩ := by
        simp [enhStep, hbest, hA]
      rw [hstep]
      exact ⟨hnd2, hsub.trans (List.sublist_append_left _ _), hname⟩

theorem matchRoomsEnhancedAux_inv (labels : List Label) (boundaries : List Polygon)
    (area_scale : ℚ) :
    MatchInv labels (matchRoomsEnhancedAux labels boundaries area_scale) := by
  refine foldl_preserves (MatchInv labels) _ ?_ _ _ ?_
  · intro s a hs
    exact enhStep_preserves labels area_scale s a hs
  · exact ⟨List.nodup_nil, List.nil_sublist _,
      fun pr hpr => (List.not_mem_nil pr hpr).elim⟩

/-- Claim C1 is false for the basic matcher of `dxf_processor.py`: the
single label "HALL" is never consumed and names both boundaries that
contain its anchor, so its name appears on two room candidates. -/
theorem c1_counterexample :
    match_rooms [⟨"HALL", ((0 : ℚ), (0 : ℚ))⟩]
        [⟨10000000, fun _ => true, ((0 : ℚ), (0 : ℚ))⟩,
         ⟨10000000, fun _ => true, ((0 : ℚ), (0 : ℚ))⟩] 0.000001 100000
      = [⟨"HALL", 10, ((0 : ℚ), (0 : ℚ))⟩, ⟨"HALL", 10, ((0 : ℚ), (0 : ℚ))⟩]
    ∧ ([⟨"HALL", ((0 : ℚ), (0 : ℚ))⟩] : List Label).length = 1 := by
  constructor
  · have h10 : pyRound2 ((10000000 : ℚ) * 0.000001) = 10 := by norm_num [pyRound2]
    have h10b : pyRound2 (10 : ℚ) = 10 := by norm_num [pyRound2]
    norm_num [match_rooms, extract_room_boundaries, matchRoomsGo, List.find?, h10, h10b]
  · rfl

/-- Claim C1, amended: the property holds of the *enhanced* matcher
(`dxf_processor_enhanced.py`), which keeps a `used_labels` set — each
boundary is paired with the first not-yet-consumed label whose anchor lies
inside it, a consumed label index never matches again (the consumed indices
are duplicate-free), and each consumed label names its candidate. In the
basic matcher labels are never consumed (see `c1_counterexample`). -/
theorem c1_enhanced_label_consumption (labels : List Label) (polys : List Polygon)
    (area_scale min_area_threshold : ℚ) :
    (∀ used poly k l, firstUnusedLabel labels used poly = some (k, l) →
      labels[k]? = some l ∧ k ∉ used ∧ poly.containsPt l.point = true
        ∧ ∀ m, m < k → ∀ lm, labels[m]? = some lm →
            m ∈ used ∨ poly.containsPt lm.point = false)
    ∧ ((matchRoomsEnhancedAux labels
          (extract_room_boundaries polys min_area_threshold)
          area_scale).rooms.filterMap (fun pr => pr.src)).Nodup
    ∧ (∀ pr ∈ (matchRoomsEnhancedAux labels
          (extract_room_boundaries polys min_area_threshold) area_scale).rooms,
        ∀ j, pr.src = some j → ∃ l, labels[j]? = some l ∧ pr.room.name = l.name)
    ∧ match_rooms_enhanced labels polys area_scale min_area_threshold
        = (matchRoomsEnhancedAux labels
            (extract_room_boundaries polys min_area_threshold)
            area_scale).rooms.map (fun pr => pr.room) := by
  have hinv := matchRoomsEnhancedAux_inv labels
    (extract_room_boundaries polys min_area_threshold) area_scale
  refine ⟨?_, hinv.2.1.nodup hinv.1, hinv.2.2, ?_⟩
  · intro used poly k l h
    exact firstUnusedLabel_spec labels used poly k l h
  · by_cases hB : (extract_room_boundaries polys min_area_threshold).isEmpty = true
    · have hnil : extract_room_boundaries polys min_area_threshold = [] := by
        simpa using hB
      simp [match_rooms_enhanced, hB, hnil, matchRoomsEnhancedAux]
    · have hB' : (extract_room_boundaries polys min_area_threshold).isEmpty = false :=
        Bool.not_eq_true _ ▸ eq_false_of_ne_true hB
      simp [match_rooms_enhanced, hB']

/-- Witness for `c1_enhanced_label_consumption`: a concrete drawing where
the single "KITCHEN" label is consumed by the first of two boundaries that
both contain it. -/
theorem c1_enhanced_label_consumption_witness :
    firstUnusedLabel [⟨"KITCHEN", ((1 : ℚ), (1 : ℚ))⟩] []
        ⟨2, fun _ => true, ((0 : ℚ), (0 : ℚ))⟩
      = some (0, ⟨"KITCHEN", ((1 : ℚ), (1 : ℚ))⟩)
    ∧ ([⟨"KITCHEN", ((1 : ℚ), (1 : ℚ))⟩] : List Label)[0]?
        = some ⟨"KITCHEN", ((1 : ℚ), (1 : ℚ))⟩
    ∧ (0 : ℕ) ∉ ([] : List ℕ)
    ∧ (⟨2, fun _ => true, ((0 : ℚ), (0 : ℚ))⟩ : Polygon).containsPt
        (⟨"KITCHEN", ((1 : ℚ), (1 : ℚ))⟩ : Label).point = true := by
  have hfu : firstUnusedLabel [⟨"KITCHEN", ((1 : ℚ), (1 : ℚ))⟩] []
      ⟨2, fun _ => true, ((0 : ℚ), (0 : ℚ))⟩
      = some (0, ⟨"KITCHEN", ((1 : ℚ), (1 : ℚ))⟩) := by
    simp [firstUnusedLabel, firstUnusedGo]
  have h := (c1_enhanced_label_consumption [⟨"KITCHEN", ((1 : ℚ), (1 : ℚ))⟩]
      [⟨2, fun _ => true, ((0 : ℚ), (0 : ℚ))⟩, ⟨2, fun _ => true, ((0 : ℚ), (0 : ℚ))⟩]
      1 0).1 [] ⟨2, fun _ => true, ((0 : ℚ), (0 : ℚ))⟩ 0
      ⟨"KITCHEN", ((1 : ℚ), (1 : ℚ))⟩ hfu
  exact ⟨hfu, h.1, h.2.1, h.2.2.1⟩
